import Mathlib

/-!
# decs: the OS image data source (`decs/data_source_image.go`)

A shallow embedding of `dataSourceImageRead` and of the schema declared by
`dataSourceImage`, followed by theorems about image resolution.

Conventions of the embedding.

* A Go `error` is a `GoError` carrying its message; Go's `nil` error is `none`.
* `*schema.ResourceData` is the record `ResourceData`; the function returns the
  resource data it leaves behind instead of mutating it in place.
* The remote controller (`m.(*ControllerCfg)`) and the parts of the Go runtime
  the function relies on (`json.Unmarshal`, `strconv.IsPrint`) are parameters.
* `Outcome` carries, next to the returned error and the resource data, three
  observations of the run: the remote requests issued, the number of loop
  iterations entered, and the index and record logged at line 71.
-/

namespace Decs

/-! ## Data model -/

/-- A Go `error` value, identified by its message. -/
structure GoError where
  msg : String
deriving DecidableEq, Repr

/-- Modelled from the spec: the element type of `ImagesListResp`, whose Go
declaration is not part of the sources at hand.  The spec gives a candidate
record the fields id (integer), name (string), pool (string) and sepId
(integer); `SepId` has the Go type `int`, the dynamic type of a `TypeInt`
schema value, so that `sep_id != item.SepId` compares two integers. -/
structure ImageRecord where
  ID : Int
  Name : String
  Pool : String
  SepId : Int
deriving DecidableEq, Repr

/-- The decoded response of the images list API: `ImagesListResp`. -/
abbrev ImagesListResp := List ImageRecord

/-- Go `url.Values`, a `map[string][]string`, kept as an association list. -/
abbrev Values := List (String × List String)

/-- Go `url.Values.Add`: appends the value to the values of the key. -/
def Values.Add : Values → String → String → Values
  | [], key, value => [(key, [value])]
  | (k, vs) :: rest, key, value =>
    if k = key then (k, vs ++ [value]) :: rest
    else (k, vs) :: Values.Add rest key value

/-- One invocation of `decsAPICall`: method, API path and query parameters. -/
structure Request where
  method : String
  api : String
  params : Values
deriving DecidableEq, Repr

/-- The controller `m.(*ControllerCfg)`; of it only `decsAPICall` is used, which
returns the response body or an error. -/
structure ControllerCfg where
  decsAPICall : String → String → Values → Except GoError String

/-- What the function takes from outside this file: the constant
`ImagesListAPI`, `json.Unmarshal` into an `ImagesListResp`, and the Unicode
table behind `strconv.IsPrint` (used by the `%q` verb). -/
structure GoEnv where
  ImagesListAPI : String
  Unmarshal : String → Except GoError ImagesListResp
  IsPrint : Char → Bool

/-- The fields of `*schema.ResourceData` for this data source: the resource
identity written by `SetId`, and one optional value per schema attribute
(`none`: the attribute holds no value). -/
structure ResourceData where
  Id : String
  name : Option String
  pool : Option String
  sep_id : Option Int
  tenant_id : Option Int
  rgid : Option Int
deriving DecidableEq, Repr

/-- The call `d.Get(key).(string)`: the value, or the zero value `""`. -/
def GetString (v : Option String) : String := v.getD ""

/-- The call `d.GetOk(key)` on a `TypeString` attribute: the value and whether
it is set to something other than the zero value. -/
def GetOkString (v : Option String) : String × Bool :=
  match v with
  | none => ("", false)
  | some s => (s, s != "")

/-- The call `d.GetOk(key)` on a `TypeInt` attribute: the value and whether it
is set to something other than the zero value `0`. -/
def GetOkInt (v : Option Int) : Int × Bool :=
  match v with
  | none => (0, false)
  | some i => (i, i != 0)

/-- The call `d.SetId(v)`. -/
def ResourceData.SetId (d : ResourceData) (v : String) : ResourceData :=
  { d with Id := v }

/-- The call `d.Set("sep_id", v)`. -/
def ResourceData.Set_sep_id (d : ResourceData) (v : Int) : ResourceData :=
  { d with sep_id := some v }

/-- The call `d.Set("pool", v)`. -/
def ResourceData.Set_pool (d : ResourceData) (v : String) : ResourceData :=
  { d with pool := some v }

/-! ## Formatting verbs -/

/-- The verb `%d` of `fmt.Sprintf` on an integer: its decimal form. -/
def SprintfD (i : Int) : String :=
  match i with
  | Int.ofNat n => String.mk (Nat.toDigits 10 n)
  | Int.negSucc n => String.mk ('-' :: Nat.toDigits 10 (n + 1))

/-- The table `lowerhex` of `strconv`. -/
def lowerhex (n : Nat) : Char :=
  ("0123456789abcdef".data).getD (n % 16) '0'

/-- The `\x`, `\u` and `\U` escapes of `strconv.appendEscapedRune`: the hex
digits of `r` from bit `4 * k - 4` down to bit 0, `k` digits. -/
def hexDigits (r : Nat) : Nat → List Char
  | 0 => []
  | k + 1 => lowerhex (r >>> (4 * k) % 16) :: hexDigits r k

/-- Go `strconv.appendEscapedRune` with `quote = '"'`, `ASCIIonly = false` and
`graphicOnly = false`, as reached from the verb `%q`. -/
def appendEscapedRune (IsPrint : Char → Bool) (r : Char) : List Char :=
  if r = Char.ofNat 34 ∨ r = Char.ofNat 92 then [Char.ofNat 92, r]
  else if IsPrint r then [r]
  else if r = Char.ofNat 7 then [Char.ofNat 92, 'a']
  else if r = Char.ofNat 8 then [Char.ofNat 92, 'b']
  else if r = Char.ofNat 12 then [Char.ofNat 92, 'f']
  else if r = Char.ofNat 10 then [Char.ofNat 92, 'n']
  else if r = Char.ofNat 13 then [Char.ofNat 92, 'r']
  else if r = Char.ofNat 9 then [Char.ofNat 92, 't']
  else if r = Char.ofNat 11 then [Char.ofNat 92, 'v']
  else if r.toNat < 32 ∨ r.toNat = 127 then
    Char.ofNat 92 :: 'x' :: hexDigits (r.toNat % 256) 2
  else if r.toNat < 65536 then Char.ofNat 92 :: 'u' :: hexDigits r.toNat 4
  else Char.ofNat 92 :: 'U' :: hexDigits r.toNat 8

/-- Go `strconv.Quote`, which is what the verb `%q` prints for a string: the
string between double quotes, every rune passed through
`appendEscapedRune`.  A `String` holds Unicode scalar values only, so the
branch for bytes that are not valid UTF-8 has no counterpart here. -/
def Quote (IsPrint : Char → Bool) (s : String) : String :=
  String.mk (Char.ofNat 34 :: (s.data.flatMap (appendEscapedRune IsPrint) ++ [Char.ofNat 34]))

/-- The not-found error: `fmt.Errorf("Cannot find OS Image name %q", name)`. -/
def notFoundError (IsPrint : Char → Bool) (name : String) : GoError :=
  ⟨"Cannot find OS Image name " ++ Quote IsPrint name⟩

/-! ## The read function -/

/-- What a run of `dataSourceImageRead` leaves behind: the returned error
(`none` for `nil`), the resource data, the requests passed to `decsAPICall`
in order, the number of iterations of the `range` loop that were entered, and
the `index` and `item` of the match logged before the write-back. -/
structure Outcome where
  err : Option GoError
  d : ResourceData
  calls : List Request
  examined : Nat
  matched : Option (Nat × ImageRecord)
deriving DecidableEq, Repr

/-- The loop `for index, item := range model` (lines 60-78) from position
`index` on: the first `index, item` reaching line 71, if any, and the number
of iterations entered.  Each of the two `continue` statements and the failed
name test moves on to the next item. -/
def rangeLoop (name : String) (pool : String) (pool_set : Bool) (sep_id : Int)
    (sep_set : Bool) : Nat → List ImageRecord → Option (Nat × ImageRecord) × Nat
  | _, [] => (none, 0)
  | index, item :: rest =>
    let next := rangeLoop name pool pool_set sep_id sep_set (index + 1) rest
    if item.Name = name then
      if pool_set && pool != item.Pool then (next.1, next.2 + 1)
      else if sep_set && sep_id != item.SepId then (next.1, next.2 + 1)
      else (some (index, item), 1)
    else (next.1, next.2 + 1)

/-- The query parameters built at lines 39-45. -/
def urlValues (d : ResourceData) : Values :=
  let (rgid, rgid_set) := GetOkInt d.rgid
  let (tenant_id, tenant_set) := GetOkInt d.tenant_id
  let url_values : Values := []
  let url_values := if tenant_set then url_values.Add "accountId" (SprintfD tenant_id) else url_values
  let url_values := if rgid_set then url_values.Add "cloudspaceId" (SprintfD rgid) else url_values
  url_values

/-- The write-back of lines 72-74 for the matched `item`. -/
def writeBack (d : ResourceData) (item : ImageRecord) : ResourceData :=
  ((d.SetId (SprintfD item.ID)).Set_sep_id item.SepId).Set_pool item.Pool

/-- The function `dataSourceImageRead(d, m)`. -/
def dataSourceImageRead (env : GoEnv) (d : ResourceData) (m : ControllerCfg) : Outcome :=
  let name := GetString d.name
  let (sep_id, sep_set) := GetOkInt d.sep_id
  let (pool, pool_set) := GetOkString d.pool
  let url_values := urlValues d
  let call : Request := ⟨"POST", env.ImagesListAPI, url_values⟩
  match m.decsAPICall "POST" env.ImagesListAPI url_values with
  | .error err => ⟨some err, d, [call], 0, none⟩
  | .ok body_string =>
    match env.Unmarshal body_string with
    | .error err => ⟨some err, d, [call], 0, none⟩
    | .ok model =>
      match rangeLoop name pool pool_set sep_id sep_set 0 model with
      | (some (index, item), n) => ⟨none, writeBack d item, [call], n, some (index, item)⟩
      | (none, n) => ⟨some (notFoundError env.IsPrint name), d, [call], n, none⟩

/-! ## Matching criteria -/

/-- An item passes the filters of lines 62-70: its name is the one looked
for, and its pool and SEP ID are the ones looked for when those are set. -/
def Matches (name : String) (pool : String) (pool_set : Bool) (sep_id : Int)
    (sep_set : Bool) (item : ImageRecord) : Prop :=
  item.Name = name ∧ (pool_set = true → item.Pool = pool) ∧ (sep_set = true → item.SepId = sep_id)

instance (name : String) (pool : String) (pool_set : Bool) (sep_id : Int)
    (sep_set : Bool) (item : ImageRecord) :
    Decidable (Matches name pool pool_set sep_id sep_set item) := by
  unfold Matches; infer_instance

/-- An item satisfies all active criteria of the resource data `d`, the
criteria being read as `dataSourceImageRead` reads them (lines 32-36). -/
def Satisfies (d : ResourceData) (item : ImageRecord) : Prop :=
  Matches (GetString d.name) (GetOkString d.pool).1 (GetOkString d.pool).2
    (GetOkInt d.sep_id).1 (GetOkInt d.sep_id).2 item

instance (d : ResourceData) (item : ImageRecord) : Decidable (Satisfies d item) := by
  unfold Satisfies; infer_instance

/-- The request `dataSourceImageRead` passes to `decsAPICall` (line 46). -/
def listRequest (env : GoEnv) (d : ResourceData) : Request :=
  ⟨"POST", env.ImagesListAPI, urlValues d⟩

/-! ## The schema of `dataSourceImage` -/

/-- The validator `validation.StringLenBetween(min, max)` applied to the value
`v` of attribute `k`; `len(v)` is the length in bytes. -/
def StringLenBetween (min max : Nat) (v : String) (k : String) : List GoError :=
  if v.utf8ByteSize < min ∨ v.utf8ByteSize > max then
    [⟨"expected length of " ++ k ++ " to be in the range (" ++ SprintfD min ++ " - "
      ++ SprintfD max ++ "), got " ++ v⟩]
  else []

/-- The validator `validation.IntAtLeast(min)` applied to the value `v` of
attribute `k`. -/
def IntAtLeast (min : Int) (v : Int) (k : String) : List GoError :=
  if v < min then
    [⟨"expected " ++ k ++ " to be at least (" ++ SprintfD min ++ "), got " ++ SprintfD v⟩]
  else []

/-- The fields of `schema.Schema` that bear on validation. -/
structure Schema (α : Type) where
  Required : Bool
  Optional : Bool
  ValidateFunc : α → String → List GoError

/-- The attributes of the schema built by `dataSourceImage` (lines 94-129). -/
structure ImageSchema where
  name : Schema String
  pool : Schema String
  sep_id : Schema Int
  tenant_id : Schema Int
  rgid : Schema Int

/-- The schema of `dataSourceImage()`. -/
def dataSourceImage : ImageSchema where
  name := ⟨true, false, StringLenBetween 1 128⟩
  pool := ⟨false, true, StringLenBetween 1 64⟩
  sep_id := ⟨false, true, IntAtLeast 1⟩
  tenant_id := ⟨false, true, IntAtLeast 1⟩
  rgid := ⟨false, true, IntAtLeast 1⟩

/-- Validation of one attribute as the host's `helper/schema` package carries
it out: a required attribute must be present, and a present value goes
through the attribute's `ValidateFunc`. -/
def validateAttribute {α : Type} (k : String) (s : Schema α) (raw : Option α) : List GoError :=
  match raw with
  | none => if s.Required then [⟨"\"" ++ k ++ "\": required field is not set"⟩] else []
  | some v => s.ValidateFunc v k

/-- The validation errors of the criteria `d` against a schema, attribute by
attribute. -/
def Validate (s : ImageSchema) (d : ResourceData) : List GoError :=
  validateAttribute "name" s.name d.name ++ validateAttribute "pool" s.pool d.pool
    ++ validateAttribute "sep_id" s.sep_id d.sep_id
    ++ validateAttribute "tenant_id" s.tenant_id d.tenant_id
    ++ validateAttribute "rgid" s.rgid d.rgid

/-- Modelled from the spec: the dispatch of one lookup request, which belongs
to the provider and its host (`decs.Provider()`, called from `main.go`) and is
not part of the sources at hand.  The spec has the criteria validated before
dispatch, a validation error being surfaced before any network access; the
checks are those the schema of `dataSourceImage` declares.  Criteria that pass
are handed to `dataSourceImageRead`. -/
def lookup (env : GoEnv) (d : ResourceData) (m : ControllerCfg) : Outcome :=
  match Validate dataSourceImage d with
  | [] => dataSourceImageRead env d m
  | e :: _ => ⟨some e, d, [], 0, none⟩

/-! ## Sample inputs -/

/-- The first branches of `strconv.IsPrint`, which settle every rune up to
U+00FF; runes beyond that range are looked up in tables that are not
reproduced here and count as not printable. -/
def IsPrintLatin1 (r : Char) : Bool :=
  if r.toNat ≤ 255 then
    if 32 ≤ r.toNat ∧ r.toNat ≤ 126 then true
    else if 161 ≤ r.toNat ∧ r.toNat ≤ 255 then r.toNat != 173
    else false
  else false

/-- Two images of the same name in different pools. -/
def sampleImages : ImagesListResp :=
  [⟨1, "A", "p1", 3⟩, ⟨2, "A", "p2", 7⟩]

/-- An environment whose decoder accepts the body `"images"` as `sampleImages`
and the body `"[]"` as the empty list, and rejects every other body. -/
def sampleEnv : GoEnv where
  ImagesListAPI := "/restmachine/cloudapi/images/list"
  Unmarshal := fun body =>
    if body = "images" then .ok sampleImages
    else if body = "[]" then .ok []
    else .error ⟨"unexpected end of JSON input"⟩
  IsPrint := IsPrintLatin1

/-- A controller that answers every call with the body `"images"`. -/
def sampleController : ControllerCfg := ⟨fun _ _ _ => .ok "images"⟩

/-- A controller that answers every call with the body `"[]"`. -/
def emptyController : ControllerCfg := ⟨fun _ _ _ => .ok "[]"⟩

/-- A controller that answers every call with a body that does not decode. -/
def garbledController : ControllerCfg := ⟨fun _ _ _ => .ok ""⟩

/-- A controller whose every call fails. -/
def failingController : ControllerCfg := ⟨fun _ _ _ => .error ⟨"connection refused"⟩⟩

/-- Criteria that give a name only. -/
def criteriaByName (name : String) : ResourceData :=
  ⟨"", some name, none, none, none, none⟩

/-! ## The loop -/

theorem rangeLoop_cons_hit (name pool : String) (pool_set : Bool) (sep_id : Int) (sep_set : Bool)
    (index : Nat) (item : ImageRecord) (rest : List ImageRecord)
    (h : Matches name pool pool_set sep_id sep_set item) :
    rangeLoop name pool pool_set sep_id sep_set index (item :: rest) = (some (index, item), 1) := by
  obtain ⟨h1, h2, h3⟩ := h
  cases pool_set <;> cases sep_set <;> simp_all [rangeLoop]

theorem rangeLoop_cons_miss (name pool : String) (pool_set : Bool) (sep_id : Int) (sep_set : Bool)
    (index : Nat) (item : ImageRecord) (rest : List ImageRecord)
    (h : ¬ Matches name pool pool_set sep_id sep_set item) :
    rangeLoop name pool pool_set sep_id sep_set index (item :: rest) =
      ((rangeLoop name pool pool_set sep_id sep_set (index + 1) rest).1,
       (rangeLoop name pool pool_set sep_id sep_set (index + 1) rest).2 + 1) := by
  have hstep := h
  unfold Matches at hstep
  simp only [rangeLoop]
  split_ifs with hn hp hs
  · rfl
  · rfl
  · exfalso
    apply hstep
    refine ⟨hn, ?_, ?_⟩
    · intro hps
      by_contra hne
      apply hp
      simp [hps, Ne.symm hne]
    · intro hss
      by_contra hne
      apply hs
      simp [hss, Ne.symm hne]
  · rfl


theorem rangeLoop_first (name pool : String) (pool_set : Bool) (sep_id : Int) (sep_set : Bool)
    (items : List ImageRecord) :
    ∀ (index j : Nat) (it : ImageRecord), items[j]? = some it →
      Matches name pool pool_set sep_id sep_set it →
      (∀ (i : Nat) (x : ImageRecord), i < j → items[i]? = some x →
        ¬ Matches name pool pool_set sep_id sep_set x) →
      rangeLoop name pool pool_set sep_id sep_set index items = (some (index + j, it), j + 1) := by
  induction items with
  | nil => intro index j it hj; simp at hj
  | cons head rest ih =>
    intro index j it hj hm hearlier
    cases j with
    | zero =>
      simp at hj
      subst hj
      simpa using rangeLoop_cons_hit name pool pool_set sep_id sep_set index head rest hm
    | succ j =>
      have hhead : ¬ Matches name pool pool_set sep_id sep_set head :=
        hearlier 0 head (Nat.succ_pos j) (by simp)
      have hrest := ih (index + 1) j it (by simpa using hj) hm
        (fun i x hi hx => hearlier (i + 1) x (Nat.succ_lt_succ hi) (by simpa using hx))
      rw [rangeLoop_cons_miss name pool pool_set sep_id sep_set index head rest hhead, hrest]
      simp
      omega

theorem rangeLoop_some (name pool : String) (pool_set : Bool) (sep_id : Int) (sep_set : Bool)
    (items : List ImageRecord) :
    ∀ (index k n : Nat) (it : ImageRecord),
      rangeLoop name pool pool_set sep_id sep_set index items = (some (k, it), n) →
      ∃ j, k = index + j ∧ n = j + 1 ∧ items[j]? = some it ∧
        Matches name pool pool_set sep_id sep_set it ∧
        ∀ (i : Nat) (x : ImageRecord), i < j → items[i]? = some x →
          ¬ Matches name pool pool_set sep_id sep_set x := by
  induction items with
  | nil => intro index k n it h; simp [rangeLoop] at h
  | cons head rest ih =>
    intro index k n it h
    by_cases hm : Matches name pool pool_set sep_id sep_set head
    · rw [rangeLoop_cons_hit name pool pool_set sep_id sep_set index head rest hm] at h
      simp only [Prod.mk.injEq, Option.some.injEq] at h
      obtain ⟨⟨hk, hit⟩, hn⟩ := h
      subst hit
      exact ⟨0, by omega, by omega, by simp, hm, fun i x hi => absurd hi (Nat.not_lt_zero i)⟩
    · rw [rangeLoop_cons_miss name pool pool_set sep_id sep_set index head rest hm] at h
      simp only [Prod.mk.injEq] at h
      obtain ⟨h1, h2⟩ := h
      cases n with
      | zero => omega
      | succ n =>
        have hrec : rangeLoop name pool pool_set sep_id sep_set (index + 1) rest
            = (some (k, it), n) := by
          apply Prod.ext
          · exact h1
          · simpa using h2
        obtain ⟨j, hk, hn, hj, hmj, hearlier⟩ := ih (index + 1) k n it hrec
        refine ⟨j + 1, by omega, by omega, by simpa using hj, hmj, ?_⟩
        intro i x hi hx
        cases i with
        | zero =>
          simp at hx
          subst hx
          exact hm
        | succ i => exact hearlier i x (by omega) (by simpa using hx)

theorem rangeLoop_none_iff (name pool : String) (pool_set : Bool) (sep_id : Int) (sep_set : Bool)
    (items : List ImageRecord) :
    ∀ (index : Nat), (rangeLoop name pool pool_set sep_id sep_set index items).1 = none ↔
      ∀ it ∈ items, ¬ Matches name pool pool_set sep_id sep_set it := by
  induction items with
  | nil => intro index; simp [rangeLoop]
  | cons head rest ih =>
    intro index
    by_cases hm : Matches name pool pool_set sep_id sep_set head
    · rw [rangeLoop_cons_hit name pool pool_set sep_id sep_set index head rest hm]
      simp only [List.mem_cons, forall_eq_or_imp]
      constructor
      · intro h; simp at h
      · intro h; exact absurd hm h.1
    · rw [rangeLoop_cons_miss name pool pool_set sep_id sep_set index head rest hm]
      simp only [List.mem_cons, forall_eq_or_imp]
      rw [ih (index + 1)]
      exact ⟨fun h => ⟨hm, h⟩, fun h => h.2⟩

/-! ## Unfolding the read function -/

theorem read_call_error (env : GoEnv) (d : ResourceData) (m : ControllerCfg) (e : GoError)
    (hcall : m.decsAPICall "POST" env.ImagesListAPI (urlValues d) = .error e) :
    dataSourceImageRead env d m = ⟨some e, d, [listRequest env d], 0, none⟩ := by
  simp [dataSourceImageRead, listRequest, hcall]

theorem read_decode_error (env : GoEnv) (d : ResourceData) (m : ControllerCfg) (body : String)
    (e : GoError)
    (hcall : m.decsAPICall "POST" env.ImagesListAPI (urlValues d) = .ok body)
    (hdec : env.Unmarshal body = .error e) :
    dataSourceImageRead env d m = ⟨some e, d, [listRequest env d], 0, none⟩ := by
  simp [dataSourceImageRead, listRequest, hcall, hdec]

theorem read_hit (env : GoEnv) (d : ResourceData) (m : ControllerCfg) (body : String)
    (model : ImagesListResp) (index n : Nat) (item : ImageRecord)
    (hcall : m.decsAPICall "POST" env.ImagesListAPI (urlValues d) = .ok body)
    (hdec : env.Unmarshal body = .ok model)
    (hloop : rangeLoop (GetString d.name) (GetOkString d.pool).1 (GetOkString d.pool).2
      (GetOkInt d.sep_id).1 (GetOkInt d.sep_id).2 0 model = (some (index, item), n)) :
    dataSourceImageRead env d m
      = ⟨none, writeBack d item, [listRequest env d], n, some (index, item)⟩ := by
  simp [dataSourceImageRead, listRequest, hcall, hdec, hloop]

theorem read_miss (env : GoEnv) (d : ResourceData) (m : ControllerCfg) (body : String)
    (model : ImagesListResp) (n : Nat)
    (hcall : m.decsAPICall "POST" env.ImagesListAPI (urlValues d) = .ok body)
    (hdec : env.Unmarshal body = .ok model)
    (hloop : rangeLoop (GetString d.name) (GetOkString d.pool).1 (GetOkString d.pool).2
      (GetOkInt d.sep_id).1 (GetOkInt d.sep_id).2 0 model = (none, n)) :
    dataSourceImageRead env d m
      = ⟨some (notFoundError env.IsPrint (GetString d.name)), d, [listRequest env d], n, none⟩ := by
  simp [dataSourceImageRead, listRequest, hcall, hdec, hloop]

/-- Whatever the controller and the decoder answer, a run ends in one of the
four ways above. -/
theorem read_cases (env : GoEnv) (d : ResourceData) (m : ControllerCfg) :
    (∃ e, m.decsAPICall "POST" env.ImagesListAPI (urlValues d) = .error e ∧
      dataSourceImageRead env d m = ⟨some e, d, [listRequest env d], 0, none⟩) ∨
    (∃ body e, m.decsAPICall "POST" env.ImagesListAPI (urlValues d) = .ok body ∧
      env.Unmarshal body = .error e ∧
      dataSourceImageRead env d m = ⟨some e, d, [listRequest env d], 0, none⟩) ∨
    (∃ body model index n item,
      m.decsAPICall "POST" env.ImagesListAPI (urlValues d) = .ok body ∧
      env.Unmarshal body = .ok model ∧
      rangeLoop (GetString d.name) (GetOkString d.pool).1 (GetOkString d.pool).2
        (GetOkInt d.sep_id).1 (GetOkInt d.sep_id).2 0 model = (some (index, item), n) ∧
      dataSourceImageRead env d m
        = ⟨none, writeBack d item, [listRequest env d], n, some (index, item)⟩) ∨
    (∃ body model n,
      m.decsAPICall "POST" env.ImagesListAPI (urlValues d) = .ok body ∧
      env.Unmarshal body = .ok model ∧
      rangeLoop (GetString d.name) (GetOkString d.pool).1 (GetOkString d.pool).2
        (GetOkInt d.sep_id).1 (GetOkInt d.sep_id).2 0 model = (none, n) ∧
      dataSourceImageRead env d m
        = ⟨some (notFoundError env.IsPrint (GetString d.name)), d, [listRequest env d], n,
            none⟩) := by
  cases hcall : m.decsAPICall "POST" env.ImagesListAPI (urlValues d) with
  | error e => exact Or.inl ⟨e, rfl, read_call_error env d m e hcall⟩
  | ok body =>
    cases hdec : env.Unmarshal body with
    | error e => exact Or.inr (Or.inl ⟨body, e, rfl, hdec, read_decode_error env d m body e hcall hdec⟩)
    | ok model =>
      cases hloop : rangeLoop (GetString d.name) (GetOkString d.pool).1 (GetOkString d.pool).2
        (GetOkInt d.sep_id).1 (GetOkInt d.sep_id).2 0 model with
      | mk found n =>
        cases found with
        | none =>
          exact Or.inr (Or.inr (Or.inr ⟨body, model, n, rfl, hdec, hloop,
            read_miss env d m body model n hcall hdec hloop⟩))
        | some hit =>
          obtain ⟨index, item⟩ := hit
          exact Or.inr (Or.inr (Or.inl ⟨body, model, index, n, item, rfl, hdec, hloop,
            read_hit env d m body model index n item hcall hdec hloop⟩))


/-! ## Resolution -/

/-- C1: whenever `dataSourceImageRead` returns no error, the fetch and the
decode have succeeded and the record it resolves is the earliest item of the
decoded sequence that satisfies all active criteria: its name is the name
looked for, its pool is the pool looked for if pool is set, its SEP ID is the
SEP ID looked for if sep_id is set, and no earlier item satisfies all of
them; the loop stops at that item and the write-back is made from it. -/
theorem resolves_earliest_match (env : GoEnv) (d : ResourceData) (m : ControllerCfg)
    (hok : (dataSourceImageRead env d m).err = none) :
    ∃ (body : String) (model : ImagesListResp) (index : Nat) (item : ImageRecord),
      m.decsAPICall "POST" env.ImagesListAPI (urlValues d) = .ok body ∧
      env.Unmarshal body = .ok model ∧
      (dataSourceImageRead env d m).matched = some (index, item) ∧
      (dataSourceImageRead env d m).d = writeBack d item ∧
      (dataSourceImageRead env d m).examined = index + 1 ∧
      model[index]? = some item ∧
      item.Name = GetString d.name ∧
      ((GetOkString d.pool).2 = true → item.Pool = (GetOkString d.pool).1) ∧
      ((GetOkInt d.sep_id).2 = true → item.SepId = (GetOkInt d.sep_id).1) ∧
      ∀ (j : Nat) (x : ImageRecord), j < index → model[j]? = some x → ¬ Satisfies d x := by
  rcases read_cases env d m with ⟨e, _, h⟩ | ⟨b, e, _, _, h⟩ |
    ⟨body, model, index, n, item, hcall, hdec, hloop, h⟩ | ⟨b, md, n, _, _, _, h⟩
  · rw [h] at hok; simp at hok
  · rw [h] at hok; simp at hok
  · obtain ⟨j, hj, hn, hget, hm, hearlier⟩ := rangeLoop_some _ _ _ _ _ model 0 index n item hloop
    have hij : index = j := by omega
    subst hij
    rw [h]
    exact ⟨body, model, index, item, hcall, hdec, rfl, rfl, hn, hget, hm.1, hm.2.1, hm.2.2,
      hearlier⟩
  · rw [h] at hok; simp at hok

/-- C2: when the fetch and the decode succeed, `dataSourceImageRead` returns
the not-found error exactly when no item of the decoded sequence satisfies
all active criteria, and returns no error exactly when some item does; in
particular it returns the not-found error when no item has the name looked
for. -/
theorem not_found_iff_no_match (env : GoEnv) (d : ResourceData) (m : ControllerCfg)
    (body : String) (model : ImagesListResp)
    (hcall : m.decsAPICall "POST" env.ImagesListAPI (urlValues d) = .ok body)
    (hdec : env.Unmarshal body = .ok model) :
    ((dataSourceImageRead env d m).err = some (notFoundError env.IsPrint (GetString d.name)) ↔
      ∀ item ∈ model, ¬ Satisfies d item) ∧
    ((dataSourceImageRead env d m).err = none ↔ ∃ item ∈ model, Satisfies d item) ∧
    ((∀ item ∈ model, item.Name ≠ GetString d.name) →
      (dataSourceImageRead env d m).err = some (notFoundError env.IsPrint (GetString d.name))) := by
  have hiff := rangeLoop_none_iff (GetString d.name) (GetOkString d.pool).1 (GetOkString d.pool).2
      (GetOkInt d.sep_id).1 (GetOkInt d.sep_id).2 model 0
  have key : ((dataSourceImageRead env d m).err
        = some (notFoundError env.IsPrint (GetString d.name)) ↔
      ∀ item ∈ model, ¬ Satisfies d item) ∧
      ((dataSourceImageRead env d m).err = none ↔ ∃ item ∈ model, Satisfies d item) := by
    cases hloop : rangeLoop (GetString d.name) (GetOkString d.pool).1 (GetOkString d.pool).2
        (GetOkInt d.sep_id).1 (GetOkInt d.sep_id).2 0 model with
    | mk found n =>
      rw [hloop] at hiff
      cases found with
      | none =>
        rw [read_miss env d m body model n hcall hdec hloop]
        have hall : ∀ item ∈ model, ¬ Satisfies d item := hiff.mp rfl
        refine ⟨⟨fun _ => hall, fun _ => rfl⟩, ⟨fun h => by simp at h, ?_⟩⟩
        rintro ⟨item, hmem, hsat⟩
        exact absurd hsat (hall item hmem)
      | some hit =>
        obtain ⟨index, item⟩ := hit
        rw [read_hit env d m body model index n item hcall hdec hloop]
        have hnot : ¬ ∀ item ∈ model, ¬ Satisfies d item := fun h => by
          have := hiff.mpr h
          simp at this
        refine ⟨⟨fun h => by simp at h, fun h => absurd h hnot⟩, ⟨fun _ => ?_, fun _ => rfl⟩⟩
        by_contra hex
        exact hnot (fun item hmem hsat => hex ⟨item, hmem, hsat⟩)
  refine ⟨key.1, key.2, fun hname => key.1.mpr ?_⟩
  intro item hmem hsat
  exact hname item hmem hsat.1

/-- C3: whenever `dataSourceImageRead` resolves a record `c`, it returns no
error and the resource data it leaves has the identity set to the decimal
form of `c.ID`, `sep_id` set to `c.SepId` and `pool` set to `c.Pool`, whatever
the criteria held for `pool` and `sep_id`; the other attributes are as
before. -/
theorem write_back_resolved (env : GoEnv) (d : ResourceData) (m : ControllerCfg)
    (index : Nat) (c : ImageRecord)
    (hres : (dataSourceImageRead env d m).matched = some (index, c)) :
    (dataSourceImageRead env d m).err = none ∧
    (dataSourceImageRead env d m).d.Id = SprintfD c.ID ∧
    (dataSourceImageRead env d m).d.sep_id = some c.SepId ∧
    (dataSourceImageRead env d m).d.pool = some c.Pool ∧
    (GetOkInt (dataSourceImageRead env d m).d.sep_id).1 = c.SepId ∧
    (GetOkString (dataSourceImageRead env d m).d.pool).1 = c.Pool ∧
    (dataSourceImageRead env d m).d.name = d.name ∧
    (dataSourceImageRead env d m).d.tenant_id = d.tenant_id ∧
    (dataSourceImageRead env d m).d.rgid = d.rgid := by
  rcases read_cases env d m with ⟨e, _, h⟩ | ⟨b, e, _, _, h⟩ | ⟨b, md, i, n, it, _, _, _, h⟩ |
    ⟨b, md, n, _, _, _, h⟩
  · rw [h] at hres; simp at hres
  · rw [h] at hres; simp at hres
  · rw [h] at hres ⊢
    simp only [Option.some.injEq, Prod.mk.injEq] at hres
    obtain ⟨_, hc⟩ := hres
    subst hc
    simp [writeBack, ResourceData.SetId, ResourceData.Set_sep_id, ResourceData.Set_pool,
      GetOkInt, GetOkString]
  · rw [h] at hres; simp at hres

/-- C4: whenever `dataSourceImageRead` returns an error, the resource data it
leaves is the resource data it was given, field for field. -/
theorem error_leaves_state (env : GoEnv) (d : ResourceData) (m : ControllerCfg)
    (herr : (dataSourceImageRead env d m).err ≠ none) :
    (dataSourceImageRead env d m).d = d := by
  rcases read_cases env d m with ⟨e, _, h⟩ | ⟨b, e, _, _, h⟩ | ⟨b, md, i, n, it, _, _, _, h⟩ |
    ⟨b, md, n, _, _, _, h⟩
  · rw [h]
  · rw [h]
  · rw [h] at herr; simp at herr
  · rw [h]

/-- C5: if `decsAPICall` returns an error, or returns a body that
`json.Unmarshal` rejects, `dataSourceImageRead` returns that very error, has
issued the one request and no other, has entered no iteration of the loop and
resolved nothing. -/
theorem fetch_or_decode_error_surfaces (env : GoEnv) (d : ResourceData) (m : ControllerCfg)
    (e : GoError)
    (hfail : m.decsAPICall "POST" env.ImagesListAPI (urlValues d) = .error e ∨
      ∃ body, m.decsAPICall "POST" env.ImagesListAPI (urlValues d) = .ok body ∧
        env.Unmarshal body = .error e) :
    (dataSourceImageRead env d m).err = some e ∧
    (dataSourceImageRead env d m).calls = [listRequest env d] ∧
    (dataSourceImageRead env d m).examined = 0 ∧
    (dataSourceImageRead env d m).matched = none := by
  rcases hfail with hcall | ⟨body, hcall, hdec⟩
  · rw [read_call_error env d m e hcall]
    exact ⟨rfl, rfl, rfl, rfl⟩
  · rw [read_decode_error env d m body e hcall hdec]
    exact ⟨rfl, rfl, rfl, rfl⟩


theorem urlValues_eq (d : ResourceData) :
    urlValues d =
      (if (GetOkInt d.tenant_id).2 = true
        then [("accountId", [SprintfD (GetOkInt d.tenant_id).1])] else []) ++
      (if (GetOkInt d.rgid).2 = true
        then [("cloudspaceId", [SprintfD (GetOkInt d.rgid).1])] else []) := by
  unfold urlValues
  by_cases ht : (GetOkInt d.tenant_id).2 = true <;> by_cases hr : (GetOkInt d.rgid).2 = true <;>
    simp [ht, hr, Values.Add]

theorem validated_int_set (k : String) (v : Option Int)
    (h : validateAttribute k (⟨false, true, IntAtLeast 1⟩ : Schema Int) v = []) :
    (GetOkInt v).2 = true ↔ v.isSome = true := by
  cases v with
  | none => simp [GetOkInt]
  | some i =>
    have hi : ¬ i < 1 := by
      intro hlt
      simp [validateAttribute, IntAtLeast, hlt] at h
    have hne : i ≠ 0 := by omega
    simp [GetOkInt, hne]

/-- C8: every run of `dataSourceImageRead` issues exactly one request, a POST
to `ImagesListAPI`, whose query parameters are `accountId`, the decimal form
of `tenant_id`, exactly when `tenant_id` is set, and `cloudspaceId`, the
decimal form of `rgid`, exactly when `rgid` is set; there is no other
parameter, and the parameters do not depend on name, pool or sep_id.  Set is
what `GetOk` reports, which for criteria that pass the validators of the
schema is the same as present. -/
theorem single_request_params (env : GoEnv) (d : ResourceData) (m : ControllerCfg) :
    (dataSourceImageRead env d m).calls = [⟨"POST", env.ImagesListAPI, urlValues d⟩] ∧
    urlValues d =
      (if (GetOkInt d.tenant_id).2 = true
        then [("accountId", [SprintfD (GetOkInt d.tenant_id).1])] else []) ++
      (if (GetOkInt d.rgid).2 = true
        then [("cloudspaceId", [SprintfD (GetOkInt d.rgid).1])] else []) ∧
    (∀ (k : String) (vs : List String), (k, vs) ∈ urlValues d ↔
      (k = "accountId" ∧ (GetOkInt d.tenant_id).2 = true ∧
        vs = [SprintfD (GetOkInt d.tenant_id).1]) ∨
      (k = "cloudspaceId" ∧ (GetOkInt d.rgid).2 = true ∧
        vs = [SprintfD (GetOkInt d.rgid).1])) ∧
    (∀ (id : String) (name pool : Option String) (sep_id : Option Int),
      urlValues ⟨id, name, pool, sep_id, d.tenant_id, d.rgid⟩ = urlValues d) ∧
    (Validate dataSourceImage d = [] →
      ((GetOkInt d.tenant_id).2 = true ↔ d.tenant_id.isSome = true) ∧
      ((GetOkInt d.rgid).2 = true ↔ d.rgid.isSome = true)) := by
  refine ⟨?_, urlValues_eq d, ?_, ?_, ?_⟩
  · rcases read_cases env d m with ⟨e, _, h⟩ | ⟨b, e, _, _, h⟩ | ⟨b, md, i, n, it, _, _, _, h⟩ |
      ⟨b, md, n, _, _, _, h⟩ <;> rw [h] <;> rfl
  · intro k vs
    rw [urlValues_eq d]
    by_cases ht : (GetOkInt d.tenant_id).2 = true <;> by_cases hr : (GetOkInt d.rgid).2 = true <;>
      simp [ht, hr]
  · intro id name pool sep_id
    rfl
  · intro hval
    simp only [Validate, List.append_eq_nil] at hval
    exact ⟨validated_int_set "tenant_id" d.tenant_id hval.1.2,
      validated_int_set "rgid" d.rgid hval.2⟩

theorem GetOkString_set_ne (v : Option String) (h : (GetOkString v).2 = true) :
    (GetOkString v).1 ≠ "" := by
  cases v with
  | none => simp [GetOkString] at h
  | some s => simpa [GetOkString] using h

theorem GetOkInt_set_ne (v : Option Int) (h : (GetOkInt v).2 = true) :
    (GetOkInt v).1 ≠ 0 := by
  cases v with
  | none => simp [GetOkInt] at h
  | some i => simpa [GetOkInt] using h

/-- C9: if `dataSourceImageRead` succeeds on `d`, then running it again, with
the same controller and decoder, on the resource data the first run left
succeeds, resolves the same record at the same index, issues the same
request, and leaves the resource data as the first run left it. -/
theorem resolve_twice_idempotent (env : GoEnv) (d : ResourceData) (m : ControllerCfg)
    (hok : (dataSourceImageRead env d m).err = none) :
    (dataSourceImageRead env (dataSourceImageRead env d m).d m).err = none ∧
    (dataSourceImageRead env (dataSourceImageRead env d m).d m).matched
      = (dataSourceImageRead env d m).matched ∧
    (dataSourceImageRead env (dataSourceImageRead env d m).d m).calls
      = (dataSourceImageRead env d m).calls ∧
    (dataSourceImageRead env (dataSourceImageRead env d m).d m).d
      = (dataSourceImageRead env d m).d := by
  rcases read_cases env d m with ⟨e, _, h⟩ | ⟨b, e, _, _, h⟩ |
    ⟨body, model, index, n, item, hcall, hdec, hloop, h⟩ | ⟨b, md, n, _, _, _, h⟩
  · rw [h] at hok; simp at hok
  · rw [h] at hok; simp at hok
  · obtain ⟨j, hj, hn, hget, hm, hearlier⟩ := rangeLoop_some _ _ _ _ _ model 0 index n item hloop
    have hurl : urlValues (writeBack d item) = urlValues d := rfl
    have hcall2 : m.decsAPICall "POST" env.ImagesListAPI (urlValues (writeBack d item))
        = .ok body := by rw [hurl]; exact hcall
    have hm2 : Matches (GetString (writeBack d item).name)
        (GetOkString (writeBack d item).pool).1 (GetOkString (writeBack d item).pool).2
        (GetOkInt (writeBack d item).sep_id).1 (GetOkInt (writeBack d item).sep_id).2 item :=
      ⟨hm.1, fun _ => rfl, fun _ => rfl⟩
    have hearlier2 : ∀ (i : Nat) (x : ImageRecord), i < j → model[i]? = some x →
        ¬ Matches (GetString (writeBack d item).name)
          (GetOkString (writeBack d item).pool).1 (GetOkString (writeBack d item).pool).2
          (GetOkInt (writeBack d item).sep_id).1 (GetOkInt (writeBack d item).sep_id).2 x := by
      intro i x hi hx hx2
      apply hearlier i x hi hx
      obtain ⟨hx_name, hx_pool, hx_sep⟩ := hx2
      refine ⟨hx_name, ?_, ?_⟩
      · intro hset
        have hne := GetOkString_set_ne d.pool hset
        have hitem := hm.2.1 hset
        have hflag : (GetOkString (writeBack d item).pool).2 = true := by
          show (item.Pool != "") = true
          rw [hitem]
          simpa using hne
        rw [← hitem]
        exact hx_pool hflag
      · intro hset
        have hne := GetOkInt_set_ne d.sep_id hset
        have hitem := hm.2.2 hset
        have hflag : (GetOkInt (writeBack d item).sep_id).2 = true := by
          show (item.SepId != 0) = true
          rw [hitem]
          simpa using hne
        rw [← hitem]
        exact hx_sep hflag
    have hloop2 := rangeLoop_first _ _ _ _ _ model 0 j item hget hm2 hearlier2
    have h2 := read_hit env (writeBack d item) m body model (0 + j) (j + 1) item hcall2 hdec hloop2
    have hidx : index = 0 + j := hj
    rw [h]
    simp only
    rw [h2]
    subst hidx
    exact ⟨rfl, rfl, rfl, rfl⟩
  · rw [h] at hok; simp at hok

/-- C10: a `sep_id` of 0 is read as unset: on the same resource data,
controller and decoder, `dataSourceImageRead` with `sep_id` holding 0 and with
`sep_id` holding nothing return the same error or both none, resolve the same
record at the same index after the same number of iterations and the same
request, and leave the same resource data on success; with `sep_id` holding 0
an item satisfies the criteria whatever its SEP ID is. -/
theorem sep_id_zero_is_unset (env : GoEnv) (d : ResourceData) (m : ControllerCfg) :
    (dataSourceImageRead env { d with sep_id := some 0 } m).err
      = (dataSourceImageRead env { d with sep_id := none } m).err ∧
    (dataSourceImageRead env { d with sep_id := some 0 } m).matched
      = (dataSourceImageRead env { d with sep_id := none } m).matched ∧
    (dataSourceImageRead env { d with sep_id := some 0 } m).examined
      = (dataSourceImageRead env { d with sep_id := none } m).examined ∧
    (dataSourceImageRead env { d with sep_id := some 0 } m).calls
      = (dataSourceImageRead env { d with sep_id := none } m).calls ∧
    ((dataSourceImageRead env { d with sep_id := some 0 } m).err = none →
      (dataSourceImageRead env { d with sep_id := some 0 } m).d
        = (dataSourceImageRead env { d with sep_id := none } m).d) ∧
    (∀ item : ImageRecord, Satisfies { d with sep_id := some 0 } item ↔
      (item.Name = GetString d.name ∧
        ((GetOkString d.pool).2 = true → item.Pool = (GetOkString d.pool).1))) := by
  refine ⟨?_, ?_, ?_, ?_, ?_, ?_⟩
  all_goals
    first
    | (intro item
       simp [Satisfies, Matches, GetOkInt])
    | (rcases read_cases env { d with sep_id := none } m with ⟨e, hc, h⟩ | ⟨b, e, hc, hd, h⟩ |
        ⟨b, md, i, n, it, hc, hd, hl, h⟩ | ⟨b, md, n, hc, hd, hl, h⟩
       · rw [h, read_call_error env { d with sep_id := some 0 } m e hc] <;>
           first | rfl | (intro hh; simp at hh)
       · rw [h, read_decode_error env { d with sep_id := some 0 } m b e hc hd] <;>
           first | rfl | (intro hh; simp at hh)
       · rw [h, read_hit env { d with sep_id := some 0 } m b md i n it hc hd hl] <;>
           first | rfl | (intro _; rfl)
       · rw [h, read_miss env { d with sep_id := some 0 } m b md n hc hd hl] <;>
           first | rfl | (intro hh; simp at hh))


/-! ## Validation -/

theorem length_le_utf8ByteSize (s : String) : s.length ≤ s.utf8ByteSize := by
  have key : ∀ cs : List Char, cs.length ≤ String.utf8ByteSize.go cs := by
    intro cs
    induction cs with
    | nil => simp [String.utf8ByteSize.go]
    | cons c cs ih =>
      have hpos := Char.utf8Size_pos c
      simp only [List.length_cons, String.utf8ByteSize.go]
      omega
  cases s with
  | mk cs => exact key cs

theorem validate_name_bad (name : Option String)
    (hbad : (GetString name).length = 0 ∨ 128 < (GetString name).length) :
    validateAttribute "name" dataSourceImage.name name ≠ [] := by
  cases name with
  | none => simp [validateAttribute, dataSourceImage]
  | some s =>
    have hle := length_le_utf8ByteSize s
    simp only [GetString, Option.getD_some] at hbad
    have hsize : s.utf8ByteSize < 1 ∨ s.utf8ByteSize > 128 := by
      rcases hbad with h0 | h128
      · left
        have hs : s = "" := by
          cases s with
          | mk cs =>
            have : cs = [] := List.length_eq_zero.mp h0
            subst this
            rfl
        subst hs
        decide
      · right
        omega
    simp only [validateAttribute, dataSourceImage, StringLenBetween]
    rw [if_pos hsize]
    simp

theorem validate_int_bad (k : String) (v : Int) (hv : v < 1) :
    validateAttribute k (⟨false, true, IntAtLeast 1⟩ : Schema Int) (some v) ≠ [] := by
  simp [validateAttribute, IntAtLeast, hv]

/-- C6: criteria whose name is empty or longer than 128 characters, or whose
present `sep_id`, `tenant_id` or `rgid` is less than 1, make the lookup fail
with one of the validation errors of the schema of `dataSourceImage`, with no
request issued and the resource data untouched. -/
theorem validation_precedes_remote_call (env : GoEnv) (d : ResourceData) (m : ControllerCfg)
    (hbad : (GetString d.name).length = 0 ∨ 128 < (GetString d.name).length ∨
      (∃ v, d.sep_id = some v ∧ v < 1) ∨ (∃ v, d.tenant_id = some v ∧ v < 1) ∨
      (∃ v, d.rgid = some v ∧ v < 1)) :
    ∃ e, (lookup env d m).err = some e ∧ e ∈ Validate dataSourceImage d ∧
      (lookup env d m).calls = [] ∧ (lookup env d m).d = d := by
  have hne : Validate dataSourceImage d ≠ [] := by
    unfold Validate
    rcases hbad with h | h | ⟨v, hv, hlt⟩ | ⟨v, hv, hlt⟩ | ⟨v, hv, hlt⟩
    · have := validate_name_bad d.name (Or.inl h)
      simp [this]
    · have := validate_name_bad d.name (Or.inr h)
      simp [this]
    · have := validate_int_bad "sep_id" v hlt
      rw [hv]
      simp [dataSourceImage, this]
    · have := validate_int_bad "tenant_id" v hlt
      rw [hv]
      simp [dataSourceImage, this]
    · have := validate_int_bad "rgid" v hlt
      rw [hv]
      simp [dataSourceImage, this]
  unfold lookup
  cases hval : Validate dataSourceImage d with
  | nil => exact absurd hval hne
  | cons e rest => exact ⟨e, rfl, by simp, rfl, rfl⟩

/-! ## The not-found message -/

theorem flatMap_singleton_self (f : Char → List Char) (l : List Char)
    (h : ∀ c ∈ l, f c = [c]) : l.flatMap f = l := by
  induction l with
  | nil => rfl
  | cons c cs ih =>
    have hc : f c = [c] := h c (List.mem_cons_self c cs)
    have hcs : cs.flatMap f = cs := ih (fun x hx => h x (List.mem_cons_of_mem c hx))
    simp [List.flatMap_cons, hc, hcs]

theorem appendEscapedRune_plain (IsPrint : Char → Bool) (c : Char)
    (hp : IsPrint c = true) (hq : c ≠ Char.ofNat 34) (hb : c ≠ Char.ofNat 92) :
    appendEscapedRune IsPrint c = [c] := by
  simp [appendEscapedRune, hp, hq, hb]

/-- C7, as amended: when no item satisfies the criteria, the message of the
error returned is `Cannot find OS Image name ` followed by the name in the
quoted form of the verb `%q`; it contains the name itself, character for
character, whenever every character of the name is printable and is neither
the double quote nor the backslash. -/
theorem not_found_message_quotes_name (env : GoEnv) (d : ResourceData) (m : ControllerCfg)
    (body : String) (model : ImagesListResp)
    (hcall : m.decsAPICall "POST" env.ImagesListAPI (urlValues d) = .ok body)
    (hdec : env.Unmarshal body = .ok model)
    (hnone : ∀ item ∈ model, ¬ Satisfies d item) :
    (dataSourceImageRead env d m).err
      = some ⟨"Cannot find OS Image name " ++ Quote env.IsPrint (GetString d.name)⟩ ∧
    (Quote env.IsPrint (GetString d.name)).data
      = Char.ofNat 34 :: ((GetString d.name).data.flatMap (appendEscapedRune env.IsPrint)
          ++ [Char.ofNat 34]) ∧
    ((∀ c ∈ (GetString d.name).data,
        env.IsPrint c = true ∧ c ≠ Char.ofNat 34 ∧ c ≠ Char.ofNat 92) →
      (GetString d.name).data <:+:
        ("Cannot find OS Image name " ++ Quote env.IsPrint (GetString d.name)).data) := by
  have hloop1 := (rangeLoop_none_iff (GetString d.name) (GetOkString d.pool).1
      (GetOkString d.pool).2 (GetOkInt d.sep_id).1 (GetOkInt d.sep_id).2 model 0).mpr hnone
  have hloop : rangeLoop (GetString d.name) (GetOkString d.pool).1 (GetOkString d.pool).2
      (GetOkInt d.sep_id).1 (GetOkInt d.sep_id).2 0 model
      = (none, (rangeLoop (GetString d.name) (GetOkString d.pool).1 (GetOkString d.pool).2
      (GetOkInt d.sep_id).1 (GetOkInt d.sep_id).2 0 model).2) := Prod.ext hloop1 rfl
  refine ⟨?_, rfl, ?_⟩
  · rw [read_miss env d m body model _ hcall hdec hloop]
    rfl
  · intro hplain
    have hflat : (GetString d.name).data.flatMap (appendEscapedRune env.IsPrint)
        = (GetString d.name).data :=
      flatMap_singleton_self _ _ (fun c hc =>
        appendEscapedRune_plain env.IsPrint c (hplain c hc).1 (hplain c hc).2.1 (hplain c hc).2.2)
    refine ⟨"Cannot find OS Image name ".data ++ [Char.ofNat 34], [Char.ofNat 34], ?_⟩
    simp [Quote, hflat]

/-- C7 fails as stated: for the name `a"b` and an empty image list the error
message is `Cannot find OS Image name "a\"b"`, in which the quote of the name
is preceded by a backslash, so the name is not a substring of it. -/
theorem not_found_message_literal_name_counterexample :
    (dataSourceImageRead sampleEnv (criteriaByName "a\"b") emptyController).err
      = some ⟨"Cannot find OS Image name \"a\\\"b\""⟩ ∧
    ¬ ("a\"b".data <:+: "Cannot find OS Image name \"a\\\"b\"".data) := by
  constructor
  · decide
  · decide

/-! ## The theorems at sample inputs -/

/-- C1 on the images `A` in pool `p1` and `A` in pool `p2`: the name `A` alone
resolves the first record, and the name `A` with the pool `p2` resolves the
second. -/
theorem resolves_earliest_match_witness :
    ((dataSourceImageRead sampleEnv (criteriaByName "A") sampleController).err = none ∧
      (dataSourceImageRead sampleEnv (criteriaByName "A") sampleController).matched
        = some (0, ⟨1, "A", "p1", 3⟩)) ∧
    ((dataSourceImageRead sampleEnv { criteriaByName "A" with pool := some "p2" }
        sampleController).err = none ∧
      (dataSourceImageRead sampleEnv { criteriaByName "A" with pool := some "p2" }
        sampleController).matched = some (1, ⟨2, "A", "p2", 7⟩)) ∧
    (∃ (body : String) (model : ImagesListResp) (index : Nat) (item : ImageRecord),
      sampleController.decsAPICall "POST" sampleEnv.ImagesListAPI
        (urlValues (criteriaByName "A")) = .ok body ∧
      sampleEnv.Unmarshal body = .ok model ∧
      (dataSourceImageRead sampleEnv (criteriaByName "A") sampleController).matched
        = some (index, item) ∧
      (dataSourceImageRead sampleEnv (criteriaByName "A") sampleController).d
        = writeBack (criteriaByName "A") item ∧
      (dataSourceImageRead sampleEnv (criteriaByName "A") sampleController).examined
        = index + 1 ∧
      model[index]? = some item ∧
      item.Name = GetString (criteriaByName "A").name ∧
      ((GetOkString (criteriaByName "A").pool).2 = true →
        item.Pool = (GetOkString (criteriaByName "A").pool).1) ∧
      ((GetOkInt (criteriaByName "A").sep_id).2 = true →
        item.SepId = (GetOkInt (criteriaByName "A").sep_id).1) ∧
      ∀ (j : Nat) (x : ImageRecord), j < index → model[j]? = some x →
        ¬ Satisfies (criteriaByName "A") x) :=
  ⟨⟨by decide, by decide⟩, ⟨by decide, by decide⟩,
    resolves_earliest_match sampleEnv (criteriaByName "A") sampleController (by decide)⟩

/-- C2 on the sample images: the name `Z`, which none of them has, gives the
not-found error. -/
theorem not_found_iff_no_match_witness :
    sampleController.decsAPICall "POST" sampleEnv.ImagesListAPI
        (urlValues (criteriaByName "Z")) = .ok "images" ∧
    sampleEnv.Unmarshal "images" = .ok sampleImages ∧
    (∀ item ∈ sampleImages, item.Name ≠ GetString (criteriaByName "Z").name) ∧
    (dataSourceImageRead sampleEnv (criteriaByName "Z") sampleController).err
      = some (notFoundError sampleEnv.IsPrint "Z") :=
  ⟨rfl, rfl, by decide,
    (not_found_iff_no_match sampleEnv (criteriaByName "Z") sampleController "images"
      sampleImages rfl rfl).2.2 (by decide)⟩

/-- C3 on the sample images: criteria that give the pool `p2` and no SEP ID
end with the identity `2`, the pool `p2` and the SEP ID 7 of the second
record. -/
theorem write_back_resolved_witness :
    (dataSourceImageRead sampleEnv { criteriaByName "A" with pool := some "p2" }
        sampleController).matched = some (1, ⟨2, "A", "p2", 7⟩) ∧
    (dataSourceImageRead sampleEnv { criteriaByName "A" with pool := some "p2" }
        sampleController).d = ⟨"2", some "A", some "p2", some 7, none, none⟩ ∧
    (dataSourceImageRead sampleEnv { criteriaByName "A" with pool := some "p2" }
        sampleController).d.sep_id = some 7 :=
  ⟨by decide, by decide,
    (write_back_resolved sampleEnv { criteriaByName "A" with pool := some "p2" }
      sampleController 1 ⟨2, "A", "p2", 7⟩ (by decide)).2.2.1⟩

/-- C4 on a failing controller: the resource data is returned as given. -/
theorem error_leaves_state_witness :
    (dataSourceImageRead sampleEnv (criteriaByName "A") failingController).err ≠ none ∧
    (dataSourceImageRead sampleEnv (criteriaByName "A") failingController).d
      = criteriaByName "A" :=
  ⟨by decide, error_leaves_state sampleEnv (criteriaByName "A") failingController (by decide)⟩

/-- C5 on a controller whose body does not decode: the decoder's error is the
one returned. -/
theorem fetch_or_decode_error_surfaces_witness :
    (∃ body, garbledController.decsAPICall "POST" sampleEnv.ImagesListAPI
        (urlValues (criteriaByName "A")) = .ok body ∧
      sampleEnv.Unmarshal body = .error ⟨"unexpected end of JSON input"⟩) ∧
    (dataSourceImageRead sampleEnv (criteriaByName "A") garbledController).err
      = some ⟨"unexpected end of JSON input"⟩ ∧
    (dataSourceImageRead sampleEnv (criteriaByName "A") garbledController).calls
      = [listRequest sampleEnv (criteriaByName "A")] ∧
    (dataSourceImageRead sampleEnv (criteriaByName "A") garbledController).examined = 0 ∧
    (dataSourceImageRead sampleEnv (criteriaByName "A") garbledController).matched = none :=
  ⟨⟨"", rfl, rfl⟩,
    fetch_or_decode_error_surfaces sampleEnv (criteriaByName "A") garbledController
      ⟨"unexpected end of JSON input"⟩ (Or.inr ⟨"", rfl, rfl⟩)⟩

/-- C6 on the empty name: the lookup fails on validation and issues no
request. -/
theorem validation_precedes_remote_call_witness :
    (GetString (criteriaByName "").name).length = 0 ∧
    (lookup sampleEnv (criteriaByName "") sampleController).calls = [] ∧
    ∃ e, (lookup sampleEnv (criteriaByName "") sampleController).err = some e ∧
      e ∈ Validate dataSourceImage (criteriaByName "") ∧
      (lookup sampleEnv (criteriaByName "") sampleController).calls = [] ∧
      (lookup sampleEnv (criteriaByName "") sampleController).d = criteriaByName "" :=
  ⟨by decide, by decide,
    validation_precedes_remote_call sampleEnv (criteriaByName "") sampleController
      (Or.inl (by decide))⟩

/-- C7, as amended, on the name `Z` and the sample images: the message holds
the name between quotes. -/
theorem not_found_message_quotes_name_witness :
    (∀ item ∈ sampleImages, ¬ Satisfies (criteriaByName "Z") item) ∧
    (dataSourceImageRead sampleEnv (criteriaByName "Z") sampleController).err
      = some ⟨"Cannot find OS Image name \"Z\""⟩ ∧
    (dataSourceImageRead sampleEnv (criteriaByName "Z") sampleController).err
      = some ⟨"Cannot find OS Image name "
          ++ Quote sampleEnv.IsPrint (GetString (criteriaByName "Z").name)⟩ :=
  ⟨by decide, by decide,
    (not_found_message_quotes_name sampleEnv (criteriaByName "Z") sampleController "images"
      sampleImages rfl rfl (by decide)).1⟩

/-- C8 on criteria with the tenant 5 and the resource group 12: the one
request carries `accountId=5` and `cloudspaceId=12` and nothing else. -/
theorem single_request_params_witness :
    Validate dataSourceImage { criteriaByName "A" with tenant_id := some 5, rgid := some 12 }
      = [] ∧
    (dataSourceImageRead sampleEnv
        { criteriaByName "A" with tenant_id := some 5, rgid := some 12 } sampleController).calls
      = [⟨"POST", "/restmachine/cloudapi/images/list",
          [("accountId", ["5"]), ("cloudspaceId", ["12"])]⟩] ∧
    (dataSourceImageRead sampleEnv
        { criteriaByName "A" with tenant_id := some 5, rgid := some 12 } sampleController).calls
      = [⟨"POST", sampleEnv.ImagesListAPI,
          urlValues { criteriaByName "A" with tenant_id := some 5, rgid := some 12 }⟩] :=
  ⟨by decide, by decide,
    (single_request_params sampleEnv
      { criteriaByName "A" with tenant_id := some 5, rgid := some 12 } sampleController).1⟩

/-- C9 on the sample images: a second run on what the first run left resolves
the first record again. -/
theorem resolve_twice_idempotent_witness :
    (dataSourceImageRead sampleEnv (criteriaByName "A") sampleController).err = none ∧
    (dataSourceImageRead sampleEnv (criteriaByName "A") sampleController).d
      = ⟨"1", some "A", some "p1", some 3, none, none⟩ ∧
    (dataSourceImageRead sampleEnv
        (dataSourceImageRead sampleEnv (criteriaByName "A") sampleController).d
        sampleController).d
      = (dataSourceImageRead sampleEnv (criteriaByName "A") sampleController).d :=
  ⟨by decide, by decide,
    (resolve_twice_idempotent sampleEnv (criteriaByName "A") sampleController
      (by decide)).2.2.2⟩

/-- C10 on the sample images: with `sep_id` holding 0 the name `A` resolves
the first record, whose SEP ID is 3. -/
theorem sep_id_zero_is_unset_witness :
    (dataSourceImageRead sampleEnv { criteriaByName "A" with sep_id := some 0 }
        sampleController).matched = some (0, ⟨1, "A", "p1", 3⟩) ∧
    (dataSourceImageRead sampleEnv { criteriaByName "A" with sep_id := some 0 }
        sampleController).matched
      = (dataSourceImageRead sampleEnv { criteriaByName "A" with sep_id := none }
        sampleController).matched :=
  ⟨by decide, (sep_id_zero_is_unset sampleEnv (criteriaByName "A") sampleController).2.1⟩

end Decs
